import Mathlib

/-!
Verification development for the session-lifecycle subsystem of tidal-mcp.

The definitions below are a shallow embedding of the Python sources:

* src/tidal_api/session_storage.py  (class SessionStorage)
* src/tidal_api/session_manager.py  (class SessionManager)
* src/tidal_api/browser_session.py  (class BrowserSession)

External collaborators (the DiskStore plus Fernet encryption wrapper, the
tidalapi OAuth flow, the filesystem and clock) are modelled at their
documented boundary; everything written in this repository is translated
statement by statement.
-/

namespace TidalMcp

/-! ## Data model

A credential bundle as produced by BrowserSession.get_session_data
(src/tidal_api/browser_session.py, lines 126-145): token type, access token,
optional refresh token, the session id and the PKCE flag. -/

structure CredentialBundle where
  token_type : String
  access_token : String
  refresh_token : Option String
  sess_id : String
  is_pkce : Bool
deriving DecidableEq

/-- A value stored in the underlying key-value store.  SessionStorage writes
exactly two shapes of record: a session-data dict (save_session, line 114 of
session_storage.py) and the index dict holding the list of known session ids
(_save_index, lines 103-109).  The index record is modelled by the finite set
of ids it denotes: Python writes list(session_ids) and reads it back with
set(...), so only the set is ever observed.  The legacy bytes branch of
load_session (lines 128-130) only fires on records written by other software
and never on a store populated by this class, so it does not appear in the
model. -/
inductive StoredVal where
  | sess (d : CredentialBundle)
  | index (ids : Finset String)
deriving DecidableEq

/-- Model of the external FernetEncryptionWrapper over DiskStore
(session_storage.py lines 68-70).  The durable medium maps store keys to a
pair of the Fernet key the record was encrypted under and the plaintext
value.  A get decrypts successfully only under the same key; under any other
key the authenticated encryption of Fernet raises InvalidToken, modelled as the
error outcome — it can never hand back corrupted plaintext. -/
structure Store where
  encKey : Nat
  disk : String → Option (Nat × StoredVal)

/-- self._store.put(key, value): upsert, encrypting under the instance key. -/
def storePut (st : Store) (k : String) (v : StoredVal) : Store :=
  { st with disk := fun q => if q = k then some (st.encKey, v) else st.disk q }

/-- self._store.delete(key). -/
def storeDelete (st : Store) (k : String) : Store :=
  { st with disk := fun q => if q = k then none else st.disk q }

/-- self._store.get(key): none when the key is absent, the value when the
record decrypts under the instance key, and a raised error otherwise. -/
def storeGet (st : Store) (k : String) : Except Unit (Option StoredVal) :=
  match st.disk k with
  | none => Except.ok none
  | some (ek, v) => if ek = st.encKey then Except.ok (some v) else Except.error ()

/-- SessionStorage.INDEX_KEY (session_storage.py line 32). -/
def INDEX_KEY : String := "__sessions_index__"

/-- The store key used for one session record (lines 113, 123, 152). -/
def sessionKey (session_id : String) : String := "session:" ++ session_id

/-- SessionStorage._load_index (lines 89-101): read the index record; on a
missing record, a record of an unexpected shape, or any raised error, return
the empty set. -/
def loadIndex (st : Store) : Finset String :=
  match storeGet st INDEX_KEY with
  | Except.error _ => ∅
  | Except.ok none => ∅
  | Except.ok (some (StoredVal.index ids)) => ids
  | Except.ok (some (StoredVal.sess _)) => ∅

/-- SessionStorage._save_index (lines 103-109): write the id set back. -/
def saveIndex (st : Store) (ids : Finset String) : Store :=
  storePut st INDEX_KEY (StoredVal.index ids)

/-- SessionStorage.save_session (lines 111-119): put the bundle, then reload
the index, add the id and save the index. -/
def save_session (st : Store) (session_id : String) (d : CredentialBundle) : Store :=
  let st1 := storePut st (sessionKey session_id) (StoredVal.sess d)
  saveIndex st1 (insert session_id (loadIndex st1))

/-- SessionStorage.load_session (lines 121-134): get the record; a missing
record gives None and any raised error is caught and also gives None. -/
def load_session (st : Store) (session_id : String) : Option StoredVal :=
  match storeGet st (sessionKey session_id) with
  | Except.error _ => none
  | Except.ok v => v

/-- SessionStorage.session_exists (lines 136-139). -/
def session_exists (st : Store) (session_id : String) : Bool :=
  (load_session st session_id).isSome

/-- SessionStorage.list_sessions (lines 141-148): the ids recorded in the
index (Python returns them as a list in unspecified order; the model keeps
the set). -/
def list_sessions (st : Store) : Finset String := loadIndex st

/-- SessionStorage.delete_session (lines 150-158): delete the record, then
reload the index, discard the id and save the index. -/
def delete_session (st : Store) (session_id : String) : Store :=
  let st1 := storeDelete st (sessionKey session_id)
  saveIndex st1 ((loadIndex st1).erase session_id)

/-- A fresh store over an empty directory, holding encryption key k. -/
def emptyStore (k : Nat) : Store := ⟨k, fun _ => none⟩

/-- One synchronous operation against the store, as issued by the manager. -/
inductive StoreOp where
  | save (session_id : String) (d : CredentialBundle)
  | del (session_id : String)

def applyOp (st : Store) : StoreOp → Store
  | StoreOp.save i d => save_session st i d
  | StoreOp.del i => delete_session st i

def runOps (st : Store) (ops : List StoreOp) : Store := ops.foldl applyOp st

/-- A concrete bundle used to instantiate witnesses. -/
def sampleBundle : CredentialBundle :=
  ⟨"Bearer", "access-token-1", some "refresh-token-1", "s1", false⟩

/-! ## Session file paths (SessionManager.get_session_file_path) -/

/-- Whether a path name is absolute (begins with a slash). -/
def isAbsName (name : String) : Bool :=
  match name.data with
  | [] => false
  | c :: _ => c = '/'

/-- POSIX pathlib join of a directory and one name (the slash operator of
pathlib.Path): a name that is itself absolute replaces the directory. -/
def pathJoin (dir name : String) : String :=
  if isAbsName name then name else dir ++ "/" ++ name

/-- SessionManager.get_session_file_path (session_manager.py lines 58-75):
the sessions directory (result of the filesystem probe _get_sessions_dir,
taken here as a parameter) joined with session_id + ".json" when session_id
is truthy, else with default.json.  The id is used as given, with no
validation or sanitisation. -/
def get_session_file_path (sessionsDir : String) (session_id : Option String) : String :=
  match session_id with
  | some s =>
    if s = "" then pathJoin sessionsDir "default.json"
    else pathJoin sessionsDir (s ++ ".json")
  | none => pathJoin sessionsDir "default.json"

/-- Split a path string into its slash-separated components. -/
def splitSlashAux : List Char → List Char → List String
  | [], acc => [String.mk acc.reverse]
  | c :: rest, acc =>
    if c = '/' then String.mk acc.reverse :: splitSlashAux rest []
    else splitSlashAux rest (c :: acc)

/-- Split a path string into its slash-separated components. -/
def splitSlash (s : String) : List String := splitSlashAux s.data []

/-- Lexical resolution of . and .. components of a path, for stating where a
relative path points. -/
def normalizePath (comps : List String) : List String :=
  comps.foldl
    (fun acc c =>
      if c = ".." then acc.dropLast
      else if c = "." then acc
      else if c = "" then acc
      else acc ++ [c]) []

/-! ## BrowserSession (src/tidal_api/browser_session.py) -/

/-- The state of a concurrent.futures.Future at the moment a call looks at
it: still unresolved, resolved successfully, or resolved with a raised
error. -/
inductive FutureSt where
  | unresolved
  | resolvedOk
  | resolvedErr (msg : String)
deriving DecidableEq

/-- Ways a call can fail to return to its caller.  deadlock: the thread
blocks forever acquiring the non-reentrant threading.Lock (it already holds
the lock itself, or the lock is held by a thread that never releases it).
waitFuture: the call blocks in future.result(...) on the user-driven OAuth
flow.  pyError: an uncaught Python exception propagates out. -/
inductive Halt where
  | deadlock
  | waitFuture
  | pyError (msg : String)
deriving DecidableEq

/-- Behaviour of one BrowserSession instance during a login attempt: the
state of the OAuth future returned by login_oauth, and the results of the
two check_login calls in login_session_file_auto (line 101 before any
interactive login, line 116 after). -/
structure BS where
  future : FutureSt
  checkLoginFirst : Bool
  checkLoginAfter : Bool
deriving DecidableEq

/-- BrowserSession.login_oauth_simple (browser_session.py lines 24-57):
start the flow, print, open a browser (failures swallowed, lines 43-47),
then wait on the future with future.result(timeout=login.expires_in + 10) at
line 53.  With a future that is unresolved when the call reaches line 53 the
call blocks on the user-driven flow — the waitFuture halt — raising
TimeoutError if the window elapses first; a future already resolved with an
error re-raises that error out of result(). -/
def login_oauth_simple (bs : BS) : Halt ⊕ Unit :=
  match bs.future with
  | FutureSt.unresolved => Sum.inl Halt.waitFuture
  | FutureSt.resolvedOk => Sum.inr ()
  | FutureSt.resolvedErr m => Sum.inl (Halt.pyError m)

/-- BrowserSession.login_session_file_auto (lines 77-124) with the default
do_pkce=False used by every caller in session_manager.py: load the file when
present (lines 93-98, errors swallowed), then when check_login is false run
the blocking login_oauth_simple — TimeoutError and any other exception give
False (lines 109-114) — and finally report check_login again (lines
116-124), saving the file on success. -/
def login_session_file_auto (bs : BS) (fileExists : Bool) : Halt ⊕ Bool :=
  if bs.checkLoginFirst then
    Sum.inr bs.checkLoginAfter
  else
    match login_oauth_simple bs with
    | Sum.inl Halt.waitFuture => Sum.inl Halt.waitFuture
    | Sum.inl (Halt.pyError _) => Sum.inr false
    | Sum.inl h => Sum.inl h
    | Sum.inr () => Sum.inr bs.checkLoginAfter

/-! ## SessionManager (src/tidal_api/session_manager.py) -/

/-- The user_info dicts built at lines 93-97, 184-188, 234-238, 334-338,
408-412 and 475-479. -/
structure UserInfo where
  uid : Option String
  username : String
  email : String
deriving DecidableEq

/-- One entry of self._pending_logins (line 264):
(future, expires_in, session_file, session, created_at). -/
structure PendingEntry where
  future : FutureSt
  expires_in : Nat
  session_file : String
  session_obj : Nat
  created_at : Nat
deriving DecidableEq

/-- One entry of the self._sessions cache: (session, expires_at, user_info)
as at lines 100, 191, 241, 341, 415 and 482. -/
structure CacheEntry where
  session_obj : Nat
  expires_at : Nat
  user : UserInfo
deriving DecidableEq

/-- SessionManager state.  __init__ (lines 26-29) creates only the pending
table and the lock.  The attributes _sessions and _callbacks that the rest
of the class uses are never created anywhere in the class, so they are
Option-valued and start as none (reading them raises AttributeError).
lockDepth counts how often the running thread holds the non-reentrant
threading.Lock self._lock. -/
structure SMState where
  pendingLogins : List (String × PendingEntry)
  lockDepth : Nat
  sessionsAttr : Option (List (String × CacheEntry))
  callbacksAttr : Option (List (String × String))
deriving DecidableEq

/-- The state built by SessionManager.__init__. -/
def initSMState : SMState := ⟨[], 0, none, none⟩

/-- A method body: state in, either a halt or a returned value, state out. -/
def SM (α : Type) : Type := SMState → (Halt ⊕ α) × SMState

instance : Monad SM where
  pure a := fun s => (Sum.inr a, s)
  bind x f := fun s =>
    match x s with
    | (Sum.inl h, s1) => (Sum.inl h, s1)
    | (Sum.inr a, s1) => f a s1

def SM.read : SM SMState := fun s => (Sum.inr s, s)

def SM.write (s1 : SMState) : SM Unit := fun _ => (Sum.inr (), s1)

def SM.halt (h : Halt) : SM α := fun s => (Sum.inl h, s)

/-- A with self._lock: block around body.  threading.Lock is not reentrant:
acquiring it while it is already held blocks the thread forever (deadlock
halt, lock left as it was).  Normal exit and a raised Python exception both
release the lock (the with statement releases on exceptions); a deadlock or
a blocking wait inside the block leaves it held. -/
def withLock (body : SM α) : SM α := fun s =>
  match s.lockDepth with
  | Nat.succ _ => (Sum.inl Halt.deadlock, s)
  | 0 =>
    match body { s with lockDepth := 1 } with
    | (Sum.inl (Halt.pyError m), s1) => (Sum.inl (Halt.pyError m), { s1 with lockDepth := 0 })
    | (Sum.inl h, s1) => (Sum.inl h, s1)
    | (Sum.inr a, s1) => (Sum.inr a, { s1 with lockDepth := 0 })

/-- A try: body / except Exception: handler block — it catches raised Python
exceptions only; a deadlock or a blocking wait is not an exception. -/
def tryExcept (body : SM α) (handler : String → SM α) : SM α := fun s =>
  match body s with
  | (Sum.inl (Halt.pyError m), s1) => handler m s1
  | other => other

/-- SessionManager._is_session_valid (lines 119-144), line by line.  Line
121 acquires self._lock; every caller in the class already holds it, so in
every actual run this construct deadlocks.  Were the lock free, line 122
would read self._sessions, an attribute __init__ never creates
(AttributeError), and were that table present and holding session_id, line
128 would evaluate time.time() although the module never imports time
(NameError).  Lines 129-144 therefore cannot execute in any run and have no
residual translation. -/
def isSessionValid (session_id : String) : SM Bool :=
  withLock (do
    let st ← SM.read
    match st.sessionsAttr with
    | none => SM.halt (Halt.pyError "AttributeError: _sessions")
    | some tbl =>
      if (tbl.lookup session_id).isNone then
        pure false
      else
        SM.halt (Halt.pyError "NameError: name time is not defined"))

/-- The result dictionaries returned by the manager; absent keys are none. -/
structure ResultDict where
  status : Option String := none
  message : Option String := none
  sess_id : Option String := none
  user_id : Option String := none
  auth_url : Option String := none
  expires_in : Option Int := none
  callback_url : Option String := none
  authenticated : Option Bool := none
  user : Option UserInfo := none
deriving DecidableEq

/-- Behaviour of the external collaborators during one call: the
filesystem, the result of loading the session file into a fresh
BrowserSession, its check_login, the OAuth flow start, and the sessions
directory chosen by _get_sessions_dir. -/
structure Env where
  fileExists : String → Bool
  loadFromFile : Except String Unit
  checkLogin : Except String Bool
  oauthStart : Except String (String × Nat × FutureSt)
  sessionsDir : String

/-- SessionManager.authenticate (lines 199-278), line by line.  freshId
stands for str(uuid.uuid4()) at line 211.  Line 214 takes self._lock and
line 215 calls _is_session_valid, which re-acquires the same non-reentrant
lock: every call deadlocks there.  Everything below line 215 is dead code in
any actual run; it is nevertheless translated in full. -/
def authenticate (env : Env) (session_id : Option String) (callback_url : Option String)
    (freshId : String) : SM ResultDict := do
  let sid := match session_id with
    | none => freshId
    | some s => if s = "" then freshId else s
  let r1 ← withLock (do
    let b ← isSessionValid sid
    if b then do
      let st ← SM.read
      match st.sessionsAttr with
      | none => SM.halt (Halt.pyError "AttributeError: _sessions")
      | some tbl =>
        match tbl.lookup sid with
        | none => SM.halt (Halt.pyError "KeyError")
        | some entry =>
          pure (some { status := some "success", message := some "Already authenticated",
                       sess_id := some sid, user_id := entry.user.uid : ResultDict })
    else
      pure none)
  match r1 with
  | some d => pure d
  | none => do
    let session_file := get_session_file_path env.sessionsDir (some sid)
    if env.fileExists session_file then
      tryExcept (do
        match env.loadFromFile with
        | Except.error m => SM.halt (Halt.pyError m)
        | Except.ok () =>
          match env.checkLogin with
          | Except.error m => SM.halt (Halt.pyError m)
          | Except.ok true =>
            -- line 233: time.time() with time unbound; the NameError is
            -- caught by the except at lines 249-250, so the success return
            -- at lines 243-248 cannot execute in any run.
            SM.halt (Halt.pyError "NameError: name time is not defined")
          | Except.ok false => pure ())
        (fun _ => pure ())
    else pure ()
    tryExcept (do
      match env.oauthStart with
      | Except.error m => SM.halt (Halt.pyError m)
      | Except.ok _startData => do
        match callback_url with
        | some cb =>
          if cb = "" then pure ()
          else
            withLock (do
              let st ← SM.read
              match st.callbacksAttr with
              | none => SM.halt (Halt.pyError "AttributeError: _callbacks")
              | some tbl => SM.write { st with callbacksAttr := some ((sid, cb) :: tbl) })
        | none => pure ()
        -- line 262: created_at = time.time() with time unbound; the
        -- NameError is caught at line 276, so the pending registration and
        -- the pending return (lines 263-275) cannot execute in any run.
        SM.halt (Halt.pyError "NameError: name time is not defined"))
      (fun m => pure { status := some "error",
                       message := some ("Authentication error: " ++ m) : ResultDict })

/-- SessionManager.check_login_status (lines 280-435), line by line.  Line
291 takes self._lock and line 292 calls _is_session_valid, which re-acquires
it: every call deadlocks there.  The rest of the body is dead code in any
actual run and is translated in full below: the pending branch evaluates
time.time() at line 314 with time unbound and nothing catches the NameError;
the file fallback (lines 398-403) calls the blocking
login_session_file_auto. -/
def check_login_status (env : Env) (bs : BS) (session_id : String) : SM ResultDict := do
  let r1 ← withLock (do
    let b ← isSessionValid session_id
    if b then do
      let st ← SM.read
      match st.sessionsAttr with
      | none => SM.halt (Halt.pyError "AttributeError: _sessions")
      | some tbl =>
        match tbl.lookup session_id with
        | none => SM.halt (Halt.pyError "KeyError")
        | some entry =>
          match st.callbacksAttr with
          | none => SM.halt (Halt.pyError "AttributeError: _callbacks")
          | some cbs =>
            pure (some { status := some "success", authenticated := some true,
                         message := some "Valid TIDAL session",
                         sess_id := some session_id, user := some entry.user,
                         callback_url := cbs.lookup session_id : ResultDict })
    else pure none)
  match r1 with
  | some d => pure d
  | none => do
    let session_file := get_session_file_path env.sessionsDir (some session_id)
    let r2 ← withLock (do
      let st ← SM.read
      match st.pendingLogins.lookup session_id with
      | some _entry =>
        -- line 314: elapsed = time.time() - created_at with time unbound;
        -- nothing here catches the NameError, so it propagates to the
        -- caller and lines 315-395 cannot execute in any run.
        SM.halt (Halt.pyError "NameError: name time is not defined")
      | none => (pure none : SM (Option ResultDict)))
    match r2 with
    | some d => pure d
    | none => do
      if env.fileExists session_file then
        tryExcept (do
          match login_session_file_auto bs true with
          | Sum.inl h => SM.halt h
          | Sum.inr true =>
            -- line 407: time.time() with time unbound; the NameError is
            -- caught at lines 428-429, so the success return at lines
            -- 418-427 cannot execute in any run.
            SM.halt (Halt.pyError "NameError: name time is not defined")
          | Sum.inr false => pure ())
          (fun _ => pure ())
      else pure ()
      pure { status := some "not_authenticated", authenticated := some false,
             message := some "No active session found" : ResultDict }

/-- SessionManager.get_authenticated_session (lines 146-197), line by line.
Line 164 takes self._lock and line 165 calls _is_session_valid, which
re-acquires it: every call deadlocks there.  Below the deadlock, the hit
path (lines 166-169) would slide the expiry forward — but only after
evaluating time.time() with time unbound — and the miss path falls back to
the session file through the blocking login_session_file_auto, raising
RuntimeError when that fails.  The returned BrowserSession object is
modelled by an opaque numeric identity. -/
def get_authenticated_session (env : Env) (bs : BS) (session_id : Option String) :
    SM Nat := do
  let sid := match session_id with
    | none => "default"
    | some s => if s = "" then "default" else s
  let r1 ← withLock (do
    let b ← isSessionValid sid
    if b then do
      let st ← SM.read
      match st.sessionsAttr with
      | none => SM.halt (Halt.pyError "AttributeError: _sessions")
      | some tbl =>
        match tbl.lookup sid with
        | none => SM.halt (Halt.pyError "KeyError")
        | some _entry =>
          -- lines 167-169: expires_at = time.time() + SESSION_EXPIRY_SECONDS
          -- with time unbound; the expiry slide cannot execute in any run.
          (SM.halt (Halt.pyError "NameError: name time is not defined") :
            SM (Option Nat))
    else pure none)
  match r1 with
  | some so => pure so
  | none => do
    let session_file := get_session_file_path env.sessionsDir (some sid)
    if env.fileExists session_file then
      tryExcept (do
        match login_session_file_auto bs true with
        | Sum.inl h => SM.halt h
        | Sum.inr true =>
          -- line 183: time.time() with time unbound; the NameError is
          -- caught at lines 194-195, so the success return at line 193
          -- cannot execute in any run.
          SM.halt (Halt.pyError "NameError: name time is not defined")
        | Sum.inr false => pure ())
        (fun _ => pure ())
    else pure ()
    SM.halt (Halt.pyError "RuntimeError: Not authenticated. Please login first.")

/-- SessionManager._save_session_to_disk (lines 109-117) resolves its target
file with get_session_file_path and writes the session there (write errors
are caught and logged); this is the path at which the session is persisted. -/
def save_session_to_disk_path (env : Env) (session_id : String) : String :=
  get_session_file_path env.sessionsDir (some session_id)

/-- A concrete external environment for concrete evaluations: no session
files exist, loading and validity checks report cleanly, and starting an
OAuth flow hands back a link valid for 300 seconds with an unresolved
future. -/
def env0 : Env :=
  ⟨fun _ => false, Except.ok (), Except.ok false,
   Except.ok ("https://link.tidal.com/AAAAA", 300, FutureSt.unresolved), "data/sessions"⟩

/-- A fresh BrowserSession whose OAuth future is unresolved and whose stored
credentials do not validate. -/
def bs0 : BS := ⟨FutureSt.unresolved, false, false⟩

/-- A manager state holding one pending login for s1 whose completion handle
has already resolved successfully, lock free, attributes as __init__ left
them. -/
def pendingResolvedState : SMState :=
  ⟨[("s1", ⟨FutureSt.resolvedOk, 300, "data/sessions/s1.json", 7, 1000⟩)], 0, none, none⟩

/-- A manager state in which the _sessions attribute exists and holds an
unexpired cached entry for s1 (a state the class itself can never build, but
the most favourable one for a cache hit). -/
def cachedState : SMState :=
  ⟨[], 0, some [("s1", ⟨3, 999999, ⟨some "12345", "user", "mail"⟩⟩)], some []⟩

/-! ### Key-scheme facts -/

theorem sessionKey_inj {a b : String} (h : sessionKey a = sessionKey b) : a = b := by
  have hd := congrArg String.data h
  simp [sessionKey, String.data_append] at hd
  exact String.ext hd

theorem sessionKey_ne_index (a : String) : sessionKey a ≠ INDEX_KEY := by
  intro h
  have hd := congrArg String.data h
  simp [sessionKey, INDEX_KEY, String.data_append] at hd

/-! ### Store-level lemmas -/

theorem storeGet_storePut_same (st : Store) (k : String) (v : StoredVal) :
    storeGet (storePut st k v) k = Except.ok (some v) := by
  simp [storeGet, storePut]

theorem storeGet_storePut_ne (st : Store) (k q : String) (v : StoredVal) (h : k ≠ q) :
    storeGet (storePut st q v) k = storeGet st k := by
  simp [storeGet, storePut, h]

theorem storeGet_storeDelete_same (st : Store) (k : String) :
    storeGet (storeDelete st k) k = Except.ok none := by
  simp [storeGet, storeDelete]

theorem storeGet_storeDelete_ne (st : Store) (k q : String) (h : k ≠ q) :
    storeGet (storeDelete st q) k = storeGet st k := by
  simp [storeGet, storeDelete, h]

theorem loadIndex_storePut_session (st : Store) (i : String) (v : StoredVal) :
    loadIndex (storePut st (sessionKey i) v) = loadIndex st := by
  simp [loadIndex, storeGet_storePut_ne _ _ _ _ (Ne.symm (sessionKey_ne_index i))]

theorem loadIndex_storeDelete_session (st : Store) (i : String) :
    loadIndex (storeDelete st (sessionKey i)) = loadIndex st := by
  simp [loadIndex, storeGet_storeDelete_ne _ _ _ (Ne.symm (sessionKey_ne_index i))]

theorem loadIndex_saveIndex (st : Store) (ids : Finset String) :
    loadIndex (saveIndex st ids) = ids := by
  simp [loadIndex, saveIndex, storeGet_storePut_same]

theorem load_session_saveIndex (st : Store) (ids : Finset String) (i : String) :
    load_session (saveIndex st ids) i = load_session st i := by
  simp [load_session, saveIndex, storeGet_storePut_ne _ _ _ _ (sessionKey_ne_index i)]

theorem load_session_storePut_session_same (st : Store) (i : String) (v : StoredVal) :
    load_session (storePut st (sessionKey i) v) i = some v := by
  simp [load_session, storeGet_storePut_same]

theorem load_session_storePut_session_ne (st : Store) (i j : String) (v : StoredVal)
    (h : j ≠ i) :
    load_session (storePut st (sessionKey i) v) j = load_session st j := by
  have hk : sessionKey j ≠ sessionKey i := fun he => h (sessionKey_inj he)
  simp [load_session, storeGet_storePut_ne _ _ _ _ hk]

/-! ### Behaviour of the SessionStorage operations -/

theorem load_session_save_same (st : Store) (i : String) (B : CredentialBundle) :
    load_session (save_session st i B) i = some (StoredVal.sess B) := by
  simp [save_session, load_session_saveIndex, load_session_storePut_session_same]

theorem load_session_save_ne (st : Store) (i j : String) (B : CredentialBundle)
    (h : j ≠ i) :
    load_session (save_session st i B) j = load_session st j := by
  simp [save_session, load_session_saveIndex, load_session_storePut_session_ne _ _ _ _ h]

theorem loadIndex_save (st : Store) (i : String) (B : CredentialBundle) :
    loadIndex (save_session st i B) = insert i (loadIndex st) := by
  simp [save_session, loadIndex_saveIndex, loadIndex_storePut_session]

theorem load_session_delete_same (st : Store) (i : String) :
    load_session (delete_session st i) i = none := by
  rw [delete_session, load_session_saveIndex]
  simp [load_session, storeGet_storeDelete_same]

theorem load_session_delete_ne (st : Store) (i j : String) (h : j ≠ i) :
    load_session (delete_session st i) j = load_session st j := by
  have hk : sessionKey j ≠ sessionKey i := fun he => h (sessionKey_inj he)
  rw [delete_session, load_session_saveIndex]
  simp [load_session, storeGet_storeDelete_ne _ _ _ hk]

theorem loadIndex_delete (st : Store) (i : String) :
    loadIndex (delete_session st i) = (loadIndex st).erase i := by
  simp [delete_session, loadIndex_saveIndex, loadIndex_storeDelete_session]

theorem loadIndex_emptyStore (k : Nat) : loadIndex (emptyStore k) = ∅ := by
  simp [loadIndex, emptyStore, storeGet]

theorem session_exists_emptyStore (k : Nat) (i : String) :
    session_exists (emptyStore k) i = false := by
  simp [session_exists, load_session, emptyStore, storeGet]

/-- The index invariant preserved by every save/delete. -/
theorem index_inv_runOps (ops : List StoreOp) (st : Store)
    (h : ∀ j, j ∈ loadIndex st ↔ session_exists st j = true) :
    ∀ j, j ∈ loadIndex (runOps st ops) ↔ session_exists (runOps st ops) j = true := by
  induction ops generalizing st with
  | nil => exact h
  | cons op rest ih =>
    refine ih (applyOp st op) ?_
    intro j
    cases op with
    | save i d =>
      by_cases hji : j = i
      · subst hji
        simp [applyOp, loadIndex_save, session_exists, load_session_save_same]
      · simp [applyOp, loadIndex_save, session_exists, load_session_save_ne _ _ _ _ hji,
          Finset.mem_insert, hji]
        exact h j
    | del i =>
      by_cases hji : j = i
      · subst hji
        simp [applyOp, loadIndex_delete, session_exists, load_session_delete_same]
      · simp [applyOp, loadIndex_delete, session_exists, load_session_delete_ne _ _ _ hji,
          Finset.mem_erase, hji]
        exact h j

/-! ## Claim theorems -/

/-- C1: FAILS on the code — for every state, every pair of arguments and
every external behaviour, SessionManager.authenticate never returns: the
call blocks forever, because line 214 takes the non-reentrant self._lock and
line 215 then calls _is_session_valid, which re-acquires that same lock at
line 121 (a caller that already holds the lock blocks at line 214 itself).
The pending table is left untouched, so no fresh login is ever registered
either. -/
theorem C1_authenticate_never_returns (env : Env) (session_id callback_url : Option String)
    (freshId : String) (st : SMState) :
    (authenticate env session_id callback_url freshId st).1 = Sum.inl Halt.deadlock ∧
    (authenticate env session_id callback_url freshId st).2.pendingLogins =
      st.pendingLogins := by
  obtain ⟨p, d, sa, ca⟩ := st
  cases d with
  | zero => exact ⟨rfl, rfl⟩
  | succ n => exact ⟨rfl, rfl⟩

/-- C2: FAILS on the code — SessionManager.authenticate never hands any
dictionary back to its caller, the error dictionary included: no call
returns a value at all, since every call deadlocks at lines 214-215; and
__init__ (lines 26-29) never creates the _sessions and _callbacks attributes
that the rest of the method needs, so even with the deadlock gone the
ordinary-failure paths would raise rather than return. -/
theorem C2_authenticate_returns_no_dict (env : Env) (session_id callback_url : Option String)
    (freshId : String) (st : SMState) :
    (¬ ∃ d : ResultDict,
        (authenticate env session_id callback_url freshId st).1 = Sum.inr d) ∧
    initSMState.sessionsAttr = none ∧ initSMState.callbacksAttr = none := by
  refine ⟨?_, rfl, rfl⟩
  rintro ⟨d, hd⟩
  obtain ⟨p, dep, sa, ca⟩ := st
  cases dep with
  | zero =>
    have h0 : (authenticate env session_id callback_url freshId ⟨p, 0, sa, ca⟩).1 =
        Sum.inl Halt.deadlock := rfl
    rw [h0] at hd
    exact Sum.noConfusion hd
  | succ n =>
    have h0 : (authenticate env session_id callback_url freshId ⟨p, n + 1, sa, ca⟩).1 =
        Sum.inl Halt.deadlock := rfl
    rw [h0] at hd
    exact Sum.noConfusion hd

/-- C3: FAILS on the code, twice over — (a) SessionManager.check_login_status
never reaches its non-blocking poll of the completion handle: every call
blocks forever re-acquiring the non-reentrant lock (line 291 together with
line 121 of _is_session_valid); (b) the disk-fallback path of
check_login_status (lines 398-403) calls login_session_file_auto, which on a
stored session that does not validate starts a fresh OAuth flow and blocks
waiting on its login future (browser_session.py, future.result at line 53) —
so that code path does wait on a login future before returning. -/
theorem C3_check_login_status_blocks (env : Env) (bs : BS) (sid : String) (st : SMState) :
    (check_login_status env bs sid st).1 = Sum.inl Halt.deadlock ∧
    login_session_file_auto ⟨FutureSt.unresolved, false, false⟩ true =
      Sum.inl Halt.waitFuture := by
  obtain ⟨p, d, sa, ca⟩ := st
  cases d with
  | zero => exact ⟨rfl, rfl⟩
  | succ n => exact ⟨rfl, rfl⟩

/-- C4: FAILS on the code — a pending entry is never consumed at all, let
alone exactly once: with a pending login for s1 whose completion handle has
already resolved successfully, check_login_status blocks forever at lines
291-292 (re-acquiring the non-reentrant lock inside _is_session_valid) and
leaves the entry in the table; the removal statements at lines 317, 343, 363
and 374 are unreachable in every run. -/
theorem C4_pending_never_consumed :
    (check_login_status env0 bs0 "s1" pendingResolvedState).1 = Sum.inl Halt.deadlock ∧
    (check_login_status env0 bs0 "s1" pendingResolvedState).2.pendingLogins =
      pendingResolvedState.pendingLogins :=
  ⟨rfl, rfl⟩

/-- C5: FAILS on the code — with a resolved completion handle, the first
poller blocks forever holding the lock (self-deadlock inside
_is_session_valid) and a second poller of the same session then blocks
forever acquiring the lock the first never releases: neither performs the
persist-and-remove, the credential is never saved at all, and the session
remains stuck in PENDING permanently. -/
theorem C5_racing_pollers_both_block :
    (check_login_status env0 bs0 "s1" pendingResolvedState).1 = Sum.inl Halt.deadlock ∧
    (check_login_status env0 bs0 "s1" pendingResolvedState).2.lockDepth = 1 ∧
    (check_login_status env0 bs0 "s1"
        (check_login_status env0 bs0 "s1" pendingResolvedState).2).1 =
      Sum.inl Halt.deadlock ∧
    (check_login_status env0 bs0 "s1"
        (check_login_status env0 bs0 "s1" pendingResolvedState).2).2.pendingLogins =
      pendingResolvedState.pendingLogins :=
  ⟨rfl, rfl, rfl, rfl⟩

/-- C6: SessionStorage.save_session of bundle B followed by load_session of
the same id — on the same instance, or on a fresh SessionStorage instance
holding the same encryption key over the same directory, and after any prior
save/delete/load history on any ids — returns exactly the stored bundle B. -/
theorem C6_save_then_load_roundtrip (st : Store) (i : String) (B : CredentialBundle) :
    load_session (save_session st i B) i = some (StoredVal.sess B) ∧
    load_session ⟨(save_session st i B).encKey, (save_session st i B).disk⟩ i =
      some (StoredVal.sess B) :=
  ⟨load_session_save_same st i B, load_session_save_same st i B⟩

/-- C7: after any finite sequence of save_session and delete_session calls
starting from an empty store, list_sessions holds exactly the set of ids for
which session_exists is true — every save adds the id to the persisted index
alongside the bundle and every delete removes both. -/
theorem C7_index_matches_store (k : Nat) (ops : List StoreOp) (i : String) :
    i ∈ list_sessions (runOps (emptyStore k) ops) ↔
      session_exists (runOps (emptyStore k) ops) i = true := by
  have base : ∀ j, j ∈ loadIndex (emptyStore k) ↔ session_exists (emptyStore k) j = true := by
    intro j
    simp [loadIndex_emptyStore, session_exists_emptyStore]
  exact index_inv_runOps ops (emptyStore k) base i

/-- C8: a record saved through an instance holding one Fernet key and read
through an instance holding a different key over the same directory is
reported as absent: load_session returns none (the wrong-key decryption
error raised by the store is caught at lines 132-134), and in general any
raised read or decryption failure makes load_session return none rather than
raise or return corrupted data. -/
theorem C8_wrong_key_reads_absent (k1 k2 : Nat) (d0 : String → Option (Nat × StoredVal))
    (i : String) (B : CredentialBundle) (h : k1 ≠ k2) :
    load_session ⟨k2, (save_session ⟨k1, d0⟩ i B).disk⟩ i = none ∧
    ∀ (st : Store) (j : String), storeGet st (sessionKey j) = Except.error () →
      load_session st j = none := by
  constructor
  · simp [load_session, storeGet, save_session, saveIndex, storePut,
      sessionKey_ne_index i, h]
  · intro st j hg
    simp [load_session, hg]

/-- Witness for C8 at the concrete keys 0 and 1 and a concrete bundle. -/
theorem C8_wrong_key_reads_absent_witness :
    (0 : Nat) ≠ 1 ∧
      (load_session ⟨1, (save_session ⟨0, fun _ => none⟩ "s1" sampleBundle).disk⟩ "s1" =
          none ∧
        ∀ (st : Store) (j : String), storeGet st (sessionKey j) = Except.error () →
          load_session st j = none) :=
  ⟨by decide, C8_wrong_key_reads_absent 0 1 (fun _ => none) "s1" sampleBundle (by decide)⟩

/-- C9: FAILS on the code — no access ever serves a cached entry, slides an
expiry or evicts an expired entry: get_authenticated_session blocks forever
at lines 164-165 (re-acquiring the non-reentrant lock inside
_is_session_valid) for every state, even one whose cache holds an unexpired
entry for the requested id; the fallback and the slide at lines 166-170 are
unreachable in every run.  (Independently, the hit path the claim describes
does not skip live re-validation: _is_session_valid line 135 calls
session.check_login() on every hit.) -/
theorem C9_cache_never_served (env : Env) (bs : BS) (sid : Option String) (st : SMState) :
    (get_authenticated_session env bs sid st).1 = Sum.inl Halt.deadlock ∧
    (get_authenticated_session env0 bs0 (some "s1") cachedState).1 =
      Sum.inl Halt.deadlock := by
  obtain ⟨p, d, sa, ca⟩ := st
  cases d with
  | zero => exact ⟨rfl, rfl⟩
  | succ n => exact ⟨rfl, rfl⟩

/-- C10 counterexample: the claim quantifies over every string session id,
but for the empty string the code takes the falsy branch of line 70 and
returns the default session file, not the directory joined with .json. -/
theorem C10_empty_id_counterexample :
    get_session_file_path "data/sessions" (some "") = "data/sessions/default.json" ∧
    get_session_file_path "data/sessions" (some "") ≠ "data/sessions/.json" := by
  constructor
  · decide
  · decide

/-- C10 amended: for every NONEMPTY session id s, get_session_file_path
returns the sessions directory pathlib-joined with s + ".json", with no
validation or sanitisation of s — in particular the id ../x yields a path
that resolves outside the sessions directory — and the disk-persist helper
_save_session_to_disk addresses the session file at exactly that path. -/
theorem C10_unsanitised_session_path (dir s : String) (h : s ≠ "") :
    get_session_file_path dir (some s) = pathJoin dir (s ++ ".json") ∧
    save_session_to_disk_path ⟨fun _ => false, Except.ok (), Except.ok false,
        Except.ok ("", 0, FutureSt.unresolved), dir⟩ s = pathJoin dir (s ++ ".json") ∧
    normalizePath (splitSlash (get_session_file_path "data/sessions" (some "../x"))) =
      ["data", "x.json"] ∧
    List.isPrefixOf ["data", "sessions"]
      (normalizePath (splitSlash (get_session_file_path "data/sessions" (some "../x")))) =
      false := by
  refine ⟨?_, ?_, by decide, by decide⟩
  · simp [get_session_file_path, h]
  · simp [save_session_to_disk_path, get_session_file_path, h]

/-- Witness for the amended C10 at the concrete id ../x. -/
theorem C10_unsanitised_session_path_witness :
    ("../x" : String) ≠ "" ∧
      (get_session_file_path "data/sessions" (some "../x") =
          pathJoin "data/sessions" ("../x" ++ ".json") ∧
        save_session_to_disk_path ⟨fun _ => false, Except.ok (), Except.ok false,
            Except.ok ("", 0, FutureSt.unresolved), "data/sessions"⟩ "../x" =
          pathJoin "data/sessions" ("../x" ++ ".json") ∧
        normalizePath (splitSlash (get_session_file_path "data/sessions" (some "../x"))) =
          ["data", "x.json"] ∧
        List.isPrefixOf ["data", "sessions"]
          (normalizePath
            (splitSlash (get_session_file_path "data/sessions" (some "../x")))) =
          false) :=
  ⟨by decide, C10_unsanitised_session_path "data/sessions" "../x" (by decide)⟩

end TidalMcp
